import Mathlib

set_option maxRecDepth 8000

/-! Shallow embedding of the BingeWatcher progress store, preferences
overlay and episode locator (src/SerienJunkie/s.toBot.py).  JSON data is
modelled by `JVal`; Python dicts by association lists (`JObj`); the state
of the progress file by `FileState`; Python exceptions by `PyErr`.
Numbers (Python ints and floats alike) are modelled as rationals. -/

/-- JSON values as stored in progress.json / settings.json. -/
inductive JVal where
  | null : JVal
  | boolean : Bool → JVal
  | num : ℚ → JVal
  | str : String → JVal
  | obj : List (String × JVal) → JVal
  | arr : List JVal → JVal

/-- A Python dict (as produced by `json.load`), modelled as an association
list; dicts the program builds have unique keys and lookup returns the
first binding. -/
abbrev JObj := List (String × JVal)

/-- Dict lookup (`d.get(k)` / `d[k]`): first binding for the key. -/
def jLookup : JObj → String → Option JVal
  | [], _ => none
  | (k, v) :: rest, key => if k = key then some v else jLookup rest key

/-- Dict assignment `d[k] = v`: replace the first binding in place, or
append a new one (Python dicts keep insertion order). -/
def jSet : JObj → String → JVal → JObj
  | [], key, val => [(key, val)]
  | (k, v) :: rest, key, val =>
      if k = key then (k, val) :: rest else (k, v) :: jSet rest key val

/-- Dict deletion `del d[k]`. -/
def jDel (o : JObj) (key : String) : JObj :=
  o.filter (fun p => p.1 ≠ key)

/-- Dict update `d.update(ps)` / `{**d, **ps}`: assign each pair of `ps`
in order. -/
def jUpdate (o : JObj) (ps : JObj) : JObj :=
  ps.foldl (fun acc p => jSet acc p.1 p.2) o

/-- Python exceptions that the modelled code can raise. -/
inductive PyErr where
  | typeError : PyErr
  | valueError : PyErr
  | jsonDecodeError : PyErr
  | osError : PyErr
  | attributeError : PyErr
deriving DecidableEq

/-- Python truthiness `bool(x)` on a JSON value. -/
def pyBool : JVal → Bool
  | JVal.null => false
  | JVal.boolean b => b
  | JVal.num q => q != 0
  | JVal.str s => s != ""
  | JVal.obj l => !l.isEmpty
  | JVal.arr l => !l.isEmpty

/-- Numeric value of a decimal digit character. -/
def digitVal (c : Char) : Nat := c.toNat - 48

/-- Value of a list of decimal digit characters. -/
def digitsToNat (ds : List Char) : Nat :=
  ds.foldl (fun n c => 10 * n + digitVal c) 0

/-- Trim ASCII whitespace from both ends of a character list. -/
def trimChars (cs : List Char) : List Char :=
  ((cs.dropWhile Char.isWhitespace).reverse.dropWhile Char.isWhitespace).reverse

/-- Python `int(s)` on a string: optional sign then decimal digits
(whitespace trimmed); `none` when the literal is malformed. -/
def parsePyIntStr (s : String) : Option Int :=
  let cs := trimChars s.data
  let core : List Char → Option Nat := fun ds =>
    if ds = [] then none
    else if ds.all Char.isDigit then some (digitsToNat ds) else none
  match cs with
  | '-' :: rest => (core rest).map (fun n => -(n : Int))
  | '+' :: rest => (core rest).map (fun n => (n : Int))
  | rest => (core rest).map (fun n => (n : Int))

/-- Python `float(s)` on a string: optional sign, digits with an optional
fractional part (whitespace trimmed); `none` when malformed. -/
def parsePyFloatStr (s : String) : Option ℚ :=
  let cs := trimChars s.data
  let core : List Char → Option ℚ := fun ds =>
    let ip := ds.takeWhile Char.isDigit
    let r := ds.dropWhile Char.isDigit
    match r with
    | [] => if ip = [] then none else some ((digitsToNat ip : ℚ))
    | '.' :: r2 =>
        let fp := r2.takeWhile Char.isDigit
        let r3 := r2.dropWhile Char.isDigit
        if r3 = [] ∧ (ip ≠ [] ∨ fp ≠ []) then
          some ((digitsToNat ip : ℚ) + (digitsToNat fp : ℚ) / (10 : ℚ) ^ fp.length)
        else none
    | _ => none
  match cs with
  | '-' :: rest => (core rest).map (fun q => -q)
  | '+' :: rest => core rest
  | rest => core rest

/-- Truncation toward zero of a rational, as Python `int()` applied to a
float (`Int.tdiv` is T-division, matching Python's truncation). -/
def pyTrunc (q : ℚ) : Int :=
  Int.tdiv q.num (q.den : Int)

/-- Python `int(x)` on a JSON value. -/
def pyInt : JVal → Except PyErr Int
  | JVal.num q => Except.ok (pyTrunc q)
  | JVal.boolean b => Except.ok (if b then 1 else 0)
  | JVal.str s =>
      match parsePyIntStr s with
      | some n => Except.ok n
      | none => Except.error PyErr.valueError
  | _ => Except.error PyErr.typeError

/-- Python `float(x)` on a JSON value. -/
def pyFloat : JVal → Except PyErr ℚ
  | JVal.num q => Except.ok q
  | JVal.boolean b => Except.ok (if b then 1 else 0)
  | JVal.str s =>
      match parsePyFloatStr s with
      | some q => Except.ok q
      | none => Except.error PyErr.valueError
  | _ => Except.error PyErr.typeError

/-- Default intro-skip constant: `int(os.getenv("BW_INTRO_SKIP", "80"))`,
modelled at its default environment value. -/
def INTRO_SKIP_SECONDS : Int := 80

/-- State of the progress file on disk: absent, present but unreadable
(I/O error), present but not valid JSON, or parsed JSON content. -/
inductive FileState where
  | absent : FileState
  | unreadable : FileState
  | invalidJson : FileState
  | json : JVal → FileState

/-- `load_progress()`: returns the parsed object when the file holds a
JSON object; an empty dict when the file is absent or the JSON value is
not an object; and an empty dict from the `except` handlers when reading
fails (`JSONDecodeError` on corrupt content, generic `Exception`
otherwise). -/
def load_progress (fs : FileState) : JObj :=
  match fs with
  | FileState.absent => []
  | FileState.unreadable => []
  | FileState.invalidJson => []
  | FileState.json (JVal.obj l) => l
  | FileState.json _ => []

/-- `save_progress(series, season, episode, position, extra=None,
provider="s.to")`: load the store, merge the given fields into the entry
for `series` (starting from `{}` when absent or not a dict), set
`timestamp = time.time()` (the `now` argument), apply `extra`, and write
the whole store back.  The write is modelled as always succeeding. -/
def save_progress (fs : FileState) (series : String)
    (season episode position : Int) (now : ℚ)
    (extra : Option JObj := none) (provider : String := "s.to") :
    Bool × FileState :=
  let db := load_progress fs
  let entry : JObj :=
    match jLookup db series with
    | some (JVal.obj e) => e
    | _ => []
  let entry := jUpdate entry
    [("season", JVal.num (season : ℚ)),
     ("episode", JVal.num (episode : ℚ)),
     ("position", JVal.num (position : ℚ)),
     ("timestamp", JVal.num now),
     ("provider", JVal.str provider)]
  let entry :=
    match extra with
    | some ex => jUpdate entry ex
    | none => entry
  let db := jSet db series (JVal.obj entry)
  (true, FileState.json (JVal.obj db))

/-- `handle_list_item_deletion(name)`: load the store; when the key is
present, delete it and rewrite the file; return `True` either way. -/
def handle_list_item_deletion (fs : FileState) (name : String) :
    Bool × FileState :=
  let db := load_progress fs
  if (jLookup db name).isSome then
    (true, FileState.json (JVal.obj (jDel db name)))
  else
    (true, fs)

/-- `get_intro_skip_end_seconds(series)`: read the stored entry,
`int(data.get("intro_skip_end", INTRO_SKIP_SECONDS + 60))`, clamped with
`max(0, ...)`; any exception yields `INTRO_SKIP_SECONDS + 60`. -/
def get_intro_skip_end_seconds (fs : FileState) (series : String) : Int :=
  let body : Except PyErr Int :=
    let data : JVal := (jLookup (load_progress fs) series).getD (JVal.obj [])
    match data with
    | JVal.obj e =>
        match pyInt ((jLookup e "intro_skip_end").getD
            (JVal.num ((INTRO_SKIP_SECONDS + 60 : Int) : ℚ))) with
        | Except.ok v => Except.ok (max 0 v)
        | Except.error err => Except.error err
    | _ => Except.error PyErr.attributeError
  match body with
  | Except.ok v => v
  | Except.error _ => INTRO_SKIP_SECONDS + 60

/-- `set_intro_skip_seconds(series, start_seconds, end_seconds=None)`:
clamp the start with `max(0, ...)`; when `end_seconds` is `None` set it to
`start + 60` (after clamping the start); clamp the end; write both fields
into the entry (starting from `{}` when absent or not a dict) and rewrite
the file.  The write is modelled as always succeeding. -/
def set_intro_skip_seconds (fs : FileState) (series : String)
    (startSeconds : Int) (endSeconds : Option Int := none) :
    Bool × FileState :=
  let s : Int := max 0 startSeconds
  let e : Int :=
    match endSeconds with
    | none => s + 60
    | some v => v
  let e : Int := max 0 e
  let db := load_progress fs
  let entry : JObj :=
    match jLookup db series with
    | some (JVal.obj ent) => ent
    | _ => []
  let entry := jSet entry "intro_skip_start" (JVal.num (s : ℚ))
  let entry := jSet entry "intro_skip_end" (JVal.num (e : ℚ))
  let db := jSet db series (JVal.obj entry)
  (true, FileState.json (JVal.obj db))

/-- `_default_settings()`. -/
def _default_settings : JObj :=
  [("autoFullscreen", JVal.boolean true),
   ("autoSkipIntro", JVal.boolean true),
   ("autoSkipEndScreen", JVal.boolean false),
   ("autoNext", JVal.boolean true),
   ("playbackRate", JVal.num 1),
   ("volume", JVal.num 1)]

/-- `save_settings_file(settings)`: start from `_default_settings()`, copy
over each default key that is present in the input, and write the result;
the previous file content is never read.  Returns the success flag and the
object written to the file. -/
def save_settings_file (settings : JObj) : Bool × JObj :=
  let d := _default_settings
  let d := (_default_settings.map Prod.fst).foldl
    (fun acc k =>
      match jLookup settings k with
      | some v => jSet acc k v
      | none => acc) d
  (true, d)

/-- `get_settings(driver)` with its two inputs made explicit: `file_s`
from `load_settings_file()` and `ls_s` from `read_settings(driver) or {}`.
Computes `merged = {**file_s, **ls_s}`, coerces the four auto flags with
`bool(merged.get(key, True))`, and the two numeric fields with
`float(merged.get(key, 1))`; `float` may raise, and `get_settings` has no
handler, so the error propagates. -/
def get_settings (file_s ls_s : JObj) : Except PyErr JObj :=
  let merged := jUpdate file_s ls_s
  let merged := jSet merged "autoFullscreen"
    (JVal.boolean (pyBool ((jLookup merged "autoFullscreen").getD (JVal.boolean true))))
  let merged := jSet merged "autoSkipIntro"
    (JVal.boolean (pyBool ((jLookup merged "autoSkipIntro").getD (JVal.boolean true))))
  let merged := jSet merged "autoSkipEndScreen"
    (JVal.boolean (pyBool ((jLookup merged "autoSkipEndScreen").getD (JVal.boolean true))))
  let merged := jSet merged "autoNext"
    (JVal.boolean (pyBool ((jLookup merged "autoNext").getD (JVal.boolean true))))
  match pyFloat ((jLookup merged "playbackRate").getD (JVal.num 1)) with
  | Except.error err => Except.error err
  | Except.ok pr =>
    let merged := jSet merged "playbackRate" (JVal.num pr)
    match pyFloat ((jLookup merged "volume").getD (JVal.num 1)) with
    | Except.error err => Except.error err
    | Except.ok vol => Except.ok (jSet merged "volume" (JVal.num vol))

/-- Strip a literal character sequence from the front of a list, returning
the remainder on success. -/
def stripLit : List Char → List Char → Option (List Char)
  | [], rest => some rest
  | _, [] => none
  | p :: ps, c :: cs => if c = p then stripLit ps cs else none

/-- Attempt the s.to pattern
`https://s\.to/serie/stream/([^/]+)/staffel-(\d+)(?:/episode-(\d+))?`
anchored at the start of the character list: literal prefix, a nonempty
run of non-`/` characters, literal `/staffel-`, a nonempty greedy digit
run, then an optional `/episode-` followed by a nonempty digit run. -/
def tryMatchSto (cs : List Char) : Option (String × Nat × Option Nat) :=
  match stripLit "https://s.to/serie/stream/".data cs with
  | none => none
  | some r1 =>
    let ser := r1.takeWhile (fun c => c ≠ '/')
    let r2 := r1.dropWhile (fun c => c ≠ '/')
    if ser.isEmpty then none
    else
      match stripLit "/staffel-".data r2 with
      | none => none
      | some r3 =>
        let ds := r3.takeWhile Char.isDigit
        let r4 := r3.dropWhile Char.isDigit
        if ds.isEmpty then none
        else
          let episode : Option Nat :=
            match stripLit "/episode-".data r4 with
            | none => none
            | some r5 =>
              let es := r5.takeWhile Char.isDigit
              if es.isEmpty then none else some (digitsToNat es)
          some (String.mk ser, digitsToNat ds, episode)

/-- `re.search` with the s.to pattern: try every start position from the
left, first successful anchor wins. -/
def searchSto : List Char → Option (String × Nat × Option Nat)
  | [] => none
  | c :: cs =>
    match tryMatchSto (c :: cs) with
    | some r => some r
    | none => searchSto cs

/-- Attempt the aniworld.to pattern
`https://aniworld\.to/anime/stream/([^/]+)/staffel-(\d+)/episode-(\d+)`
anchored at the start of the character list (episode group mandatory). -/
def tryMatchAni (cs : List Char) : Option (String × Nat × Nat) :=
  match stripLit "https://aniworld.to/anime/stream/".data cs with
  | none => none
  | some r1 =>
    let ser := r1.takeWhile (fun c => c ≠ '/')
    let r2 := r1.dropWhile (fun c => c ≠ '/')
    if ser.isEmpty then none
    else
      match stripLit "/staffel-".data r2 with
      | none => none
      | some r3 =>
        let ds := r3.takeWhile Char.isDigit
        let r4 := r3.dropWhile Char.isDigit
        if ds.isEmpty then none
        else
          match stripLit "/episode-".data r4 with
          | none => none
          | some r5 =>
            let es := r5.takeWhile Char.isDigit
            if es.isEmpty then none
            else some (String.mk ser, digitsToNat ds, digitsToNat es)

/-- `re.search` with the aniworld.to pattern. -/
def searchAni : List Char → Option (String × Nat × Nat)
  | [] => none
  | c :: cs =>
    match tryMatchAni (c :: cs) with
    | some r => some r
    | none => searchAni cs

/-- Python `str.lower()` applied characterwise (the parsed groups are
ASCII). -/
def pyLower (s : String) : String := String.mk (s.data.map Char.toLower)

/-- `parse_episode_info(url)`: try each provider pattern in the fixed
iteration order of `STREAMING_PROVIDERS` (`"s.to"` first, then
`"aniworld.to"`); on a match return `(m.group(1).lower(), int(season),
int(episode) or None, provider_id)`; otherwise `(None, None, None,
None)`. -/
def parse_episode_info (url : String) :
    Option String × Option Int × Option Int × Option String :=
  match searchSto url.data with
  | some (ser, se, ep) =>
      (some (pyLower ser), some (se : Int), ep.map Int.ofNat, some "s.to")
  | none =>
    match searchAni url.data with
    | some (ser, se, ep) =>
        (some (pyLower ser), some (se : Int), some (ep : Int), some "aniworld.to")
    | none => (none, none, none, none)

/-- The s.to `episode_url_template`
`https://s.to/serie/stream/{series}/staffel-{season}/episode-{episode}`
instantiated by `str.format`. -/
def sto_episode_url (series : String) (season episode : Int) : String :=
  "https://s.to/serie/stream/" ++ series ++ "/staffel-" ++ toString season
    ++ "/episode-" ++ toString episode

/-- The aniworld.to `episode_url_template`. -/
def aniworld_episode_url (series : String) (season episode : Int) : String :=
  "https://aniworld.to/anime/stream/" ++ series ++ "/staffel-" ++ toString season
    ++ "/episode-" ++ toString episode

/-- Outcome of one poll-loop comparison of the current URL against the
last-known identity in `play_episodes_loop`. -/
inductive NavAction where
  | continueSession : NavAction
  | switchSeries : NavAction
  | stay : NavAction
deriving DecidableEq

/-- Python truthiness of the optional parsed series string (`None` and
`""` are falsy). -/
def pyTruthyStr (s : Option String) : Bool :=
  match s with
  | none => false
  | some t => t != ""

/-- The identity comparison of `play_episodes_loop`:
`if s2 == series and (se2 is not None and ep2 is not None) and
(se2 != current_season or ep2 != current_episode)` classifies as internal
auto-navigation (continue); `elif s2 and s2 != series` as a genuine series
switch; anything else leaves the loop polling. -/
def classify_navigation (series : String) (curSeason curEpisode : Int)
    (s2 : Option String) (se2 ep2 : Option Int) : NavAction :=
  if s2 = some series ∧ se2.isSome ∧ ep2.isSome ∧
      (se2 ≠ some curSeason ∨ ep2 ≠ some curEpisode) then
    NavAction.continueSession
  else if pyTruthyStr s2 = true ∧ s2 ≠ some series then
    NavAction.switchSeries
  else
    NavAction.stay

theorem load_progress_write (l : JObj) :
    load_progress (FileState.json (JVal.obj l)) = l := rfl

theorem jLookup_jSet (o : JObj) (k : String) (v : JVal) (k' : String) :
    jLookup (jSet o k v) k' = if k = k' then some v else jLookup o k' := by
  induction o with
  | nil => simp [jSet, jLookup]
  | cons p rest ih =>
    obtain ⟨a, b⟩ := p
    by_cases hak : a = k <;> by_cases hk' : k = k' <;>
      simp_all [jSet, jLookup]

theorem jLookup_jDel (o : JObj) (k k' : String) :
    jLookup (jDel o k) k' = if k = k' then none else jLookup o k' := by
  induction o with
  | nil => simp [jDel, jLookup]
  | cons p rest ih =>
    obtain ⟨a, b⟩ := p
    by_cases hak : a = k <;> by_cases hk' : k = k' <;>
      simp_all [jDel, jLookup, List.filter_cons]

/-- Claim C2: `load()` never raises to its caller: for every backing-file
state it returns a usable mapping (either the empty dict or exactly the
object stored in the file), and on invalid JSON in particular it returns
the empty mapping. -/
theorem claim_C2_load_never_raises :
    (∀ fs : FileState, load_progress fs = [] ∨
      ∃ l : JObj, fs = FileState.json (JVal.obj l) ∧ load_progress fs = l)
    ∧ load_progress FileState.invalidJson = [] := by
  constructor
  · intro fs
    cases fs with
    | absent => exact Or.inl rfl
    | unreadable => exact Or.inl rfl
    | invalidJson => exact Or.inl rfl
    | json v =>
      cases v with
      | obj l => exact Or.inr ⟨l, rfl, rfl⟩
      | null => exact Or.inl rfl
      | boolean b => exact Or.inl rfl
      | num q => exact Or.inl rfl
      | str s => exact Or.inl rfl
      | arr l => exact Or.inl rfl
  · rfl

/-- Claim C1: store round-trip: after `save_progress(series, s, e, pos)`
(defaulted `extra`/`provider`, clock reading `now`), the save reports
success and `load()` yields a mapping whose entry for `series` has season
`s`, episode `e`, position `pos`, and a timestamp at least any time `t0`
taken before the call (`t0 ≤ now`). -/
theorem claim_C1_store_round_trip (fs : FileState) (series : String)
    (s e p : Int) (now t0 : ℚ) (h : t0 ≤ now) :
    (save_progress fs series s e p now).1 = true ∧
    ∃ entry : JObj,
      jLookup (load_progress (save_progress fs series s e p now).2) series
        = some (JVal.obj entry) ∧
      jLookup entry "season" = some (JVal.num (s : ℚ)) ∧
      jLookup entry "episode" = some (JVal.num (e : ℚ)) ∧
      jLookup entry "position" = some (JVal.num (p : ℚ)) ∧
      ∃ ts : ℚ, jLookup entry "timestamp" = some (JVal.num ts) ∧ t0 ≤ ts := by
  refine ⟨rfl, ?_⟩
  have hmain : jLookup (load_progress (save_progress fs series s e p now).2) series
      = some (JVal.obj (jUpdate
          (match jLookup (load_progress fs) series with
            | some (JVal.obj l) => l
            | _ => [])
          [("season", JVal.num (s : ℚ)), ("episode", JVal.num (e : ℚ)),
           ("position", JVal.num (p : ℚ)), ("timestamp", JVal.num now),
           ("provider", JVal.str "s.to")])) := by
    simp [save_progress, load_progress, jLookup_jSet]
  refine ⟨_, hmain, ?_, ?_, ?_, ⟨now, ?_, h⟩⟩ <;>
    simp [jUpdate, jLookup_jSet]

/-- Witness for C1 at a concrete input. -/
theorem claim_C1_store_round_trip_witness :
    (save_progress FileState.absent "one-piece" 1 5 120 1000).1 = true ∧
    ∃ entry : JObj,
      jLookup (load_progress
          (save_progress FileState.absent "one-piece" 1 5 120 1000).2)
        "one-piece" = some (JVal.obj entry) ∧
      jLookup entry "season" = some (JVal.num ((1 : Int) : ℚ)) ∧
      jLookup entry "episode" = some (JVal.num ((5 : Int) : ℚ)) ∧
      jLookup entry "position" = some (JVal.num ((120 : Int) : ℚ)) ∧
      ∃ ts : ℚ, jLookup entry "timestamp" = some (JVal.num ts) ∧ (999 : ℚ) ≤ ts :=
  claim_C1_store_round_trip FileState.absent "one-piece" 1 5 120 1000 999
    (by norm_num)

/-- Claim C8: idempotent delete: for every store state and series key,
deleting twice in a row returns success both times and leaves the store
without the key; deleting an absent key is a no-op success. -/
theorem claim_C8_idempotent_delete (fs : FileState) (name : String) :
    (handle_list_item_deletion fs name).1 = true ∧
    (handle_list_item_deletion (handle_list_item_deletion fs name).2 name).1 = true ∧
    jLookup (load_progress (handle_list_item_deletion fs name).2) name = none ∧
    jLookup (load_progress
      (handle_list_item_deletion (handle_list_item_deletion fs name).2 name).2) name
      = none ∧
    (jLookup (load_progress fs) name = none →
      (handle_list_item_deletion fs name).2 = fs) := by
  by_cases hp : (jLookup (load_progress fs) name).isSome
  · have h2 : handle_list_item_deletion fs name
        = (true, FileState.json (JVal.obj (jDel (load_progress fs) name))) := by
      simp [handle_list_item_deletion, hp]
    have hnone : jLookup (jDel (load_progress fs) name) name = none := by
      simp [jLookup_jDel]
    have h3 : handle_list_item_deletion (handle_list_item_deletion fs name).2 name
        = (true, (handle_list_item_deletion fs name).2) := by
      rw [h2]
      simp [handle_list_item_deletion, load_progress_write, hnone]
    refine ⟨by rw [h2], by rw [h3], ?_, ?_, ?_⟩
    · rw [h2]; simpa [load_progress_write] using hnone
    · rw [h3, h2]; simpa [load_progress_write] using hnone
    · intro hno; rw [hno] at hp; simp at hp
  · have hno : jLookup (load_progress fs) name = none := by
      simpa using hp
    have h2 : handle_list_item_deletion fs name = (true, fs) := by
      simp [handle_list_item_deletion, hp]
    refine ⟨by rw [h2], ?_, ?_, ?_, fun _ => by rw [h2]⟩
    · rw [h2]; simp [handle_list_item_deletion, hp]
    · rw [h2]; exact hno
    · rw [h2]; simp [handle_list_item_deletion, hp]; exact hno

/-- Witness for C8 at a concrete input, with the absent-key no-op
hypothesis discharged. -/
theorem claim_C8_idempotent_delete_witness :
    (handle_list_item_deletion FileState.absent "x").1 = true ∧
    (handle_list_item_deletion FileState.absent "x").2 = FileState.absent :=
  ⟨(claim_C8_idempotent_delete FileState.absent "x").1,
   (claim_C8_idempotent_delete FileState.absent "x").2.2.2.2 rfl⟩

/-- Claim C10: every `save_progress` call stores its `provider` argument
(default `"s.to"`) in the entry, leaves the entry's other fields (such as
`intro_skip_start`, `intro_skip_end`, `end_skip`) unchanged, and leaves
other series' entries unchanged; in particular a defaulted save replaces a
previously stored `"aniworld.to"` provider with `"s.to"` while preserving
`end_skip`. -/
theorem claim_C10_provider_overwrite :
    (∀ (fs : FileState) (series : String) (s e p : Int) (now : ℚ)
        (prov : String) (ent : JObj),
      jLookup (load_progress fs) series = some (JVal.obj ent) →
      (save_progress fs series s e p now none prov).1 = true ∧
      ∃ entry : JObj,
        jLookup (load_progress (save_progress fs series s e p now none prov).2) series
          = some (JVal.obj entry) ∧
        jLookup entry "provider" = some (JVal.str prov) ∧
        (∀ k : String,
          k ∉ ["season", "episode", "position", "timestamp", "provider"] →
          jLookup entry k = jLookup ent k) ∧
        (∀ s' : String, s' ≠ series →
          jLookup (load_progress (save_progress fs series s e p now none prov).2) s'
            = jLookup (load_progress fs) s')) ∧
    jLookup (load_progress (save_progress
        (FileState.json (JVal.obj [("bleach", JVal.obj
            [("provider", JVal.str "aniworld.to"), ("end_skip", JVal.num 30)])]))
        "bleach" 1 2 5 999).2) "bleach"
      = some (JVal.obj
          [("provider", JVal.str "s.to"), ("end_skip", JVal.num 30),
           ("season", JVal.num 1), ("episode", JVal.num 2),
           ("position", JVal.num 5), ("timestamp", JVal.num 999)]) := by
  constructor
  · intro fs series s e p now prov ent hent
    refine ⟨rfl, ?_⟩
    have hmain : jLookup (load_progress
          (save_progress fs series s e p now none prov).2) series
        = some (JVal.obj (jUpdate ent
            [("season", JVal.num (s : ℚ)), ("episode", JVal.num (e : ℚ)),
             ("position", JVal.num (p : ℚ)), ("timestamp", JVal.num now),
             ("provider", JVal.str prov)])) := by
      simp [save_progress, load_progress_write, jLookup_jSet, hent]
    refine ⟨_, hmain, ?_, ?_, ?_⟩
    · simp [jUpdate, jLookup_jSet]
    · intro k hk
      simp only [List.mem_cons, List.not_mem_nil, or_false, not_or] at hk
      obtain ⟨h1, h2, h3, h4, h5⟩ := hk
      simp [jUpdate, jLookup_jSet, Ne.symm h1, Ne.symm h2, Ne.symm h3,
        Ne.symm h4, Ne.symm h5]
    · intro s' hs'
      simp [save_progress, load_progress_write, jLookup_jSet, Ne.symm hs']
  · simp [save_progress, load_progress_write, jUpdate, jSet, jLookup]

/-- Witness for C10: the general part applied at a concrete store. -/
theorem claim_C10_provider_overwrite_witness :
    (save_progress (FileState.json (JVal.obj [("x", JVal.obj [])]))
      "x" 1 1 0 5 none "p").1 = true :=
  (claim_C10_provider_overwrite.1
    (FileState.json (JVal.obj [("x", JVal.obj [])])) "x" 1 1 0 5 "p" [] rfl).1

/-- Counterexample to C3: after `set_intro_skip("x", start=5, end=100)`,
calling `set_intro_skip("x", start=10)` with no end argument does NOT
preserve the stored end `100`: before the second call the entry is
`start=5, end=100`; after it the entry is `start=10, end=70` (`70 = 10 +
60`), and in particular it is NOT the `start=10, end=100` entry the claim
predicts. -/
theorem claim_C3_counterexample :
    jLookup (load_progress
        (set_intro_skip_seconds FileState.absent "x" 5 (some 100)).2) "x"
      = some (JVal.obj [("intro_skip_start", JVal.num 5),
          ("intro_skip_end", JVal.num 100)])
    ∧ jLookup (load_progress (set_intro_skip_seconds
        (set_intro_skip_seconds FileState.absent "x" 5 (some 100)).2 "x" 10).2) "x"
      = some (JVal.obj [("intro_skip_start", JVal.num 10),
          ("intro_skip_end", JVal.num 70)])
    ∧ ¬ jLookup (load_progress (set_intro_skip_seconds
        (set_intro_skip_seconds FileState.absent "x" 5 (some 100)).2 "x" 10).2) "x"
      = some (JVal.obj [("intro_skip_start", JVal.num 10),
          ("intro_skip_end", JVal.num 100)])
    ∧ (70 : ℚ) ≠ 100 := by
  have hafter : jLookup (load_progress (set_intro_skip_seconds
      (set_intro_skip_seconds FileState.absent "x" 5 (some 100)).2 "x" 10).2) "x"
      = some (JVal.obj [("intro_skip_start", JVal.num 10),
          ("intro_skip_end", JVal.num 70)]) := by
    simp [set_intro_skip_seconds, load_progress_write, jSet, jLookup]
  refine ⟨?_, hafter, ?_, ?_⟩
  · simp [set_intro_skip_seconds, load_progress_write, jSet, jLookup]
  · intro h
    have hcontra := hafter.symm.trans h
    norm_num at hcontra
  · norm_num

/-- Claim C3 as amended: `set_intro_skip` always writes the whole intro
window: with no end argument the stored end is overwritten with
`max 0 start + 60` (an existing end is not preserved), and with an end
argument both fields are written clamped at `0`; the entry's fields other
than `intro_skip_start`/`intro_skip_end` are preserved; the spec's
concrete example `set_intro_skip(series, start=10)` after
`set_intro_skip(series, start=5, end=70)` still yields `start=10,
end=70`, but only because `10 + 60 = 70`. -/
theorem claim_C3_amended :
    (∀ (fs : FileState) (series : String) (start : Int),
      (set_intro_skip_seconds fs series start).1 = true ∧
      ∃ entry : JObj,
        jLookup (load_progress (set_intro_skip_seconds fs series start).2) series
          = some (JVal.obj entry) ∧
        jLookup entry "intro_skip_start" = some (JVal.num ((max 0 start : Int) : ℚ)) ∧
        jLookup entry "intro_skip_end"
          = some (JVal.num ((max 0 start + 60 : Int) : ℚ)))
    ∧ (∀ (fs : FileState) (series : String) (start endv : Int),
      (set_intro_skip_seconds fs series start (some endv)).1 = true ∧
      ∃ entry : JObj,
        jLookup (load_progress
            (set_intro_skip_seconds fs series start (some endv)).2) series
          = some (JVal.obj entry) ∧
        jLookup entry "intro_skip_start" = some (JVal.num ((max 0 start : Int) : ℚ)) ∧
        jLookup entry "intro_skip_end" = some (JVal.num ((max 0 endv : Int) : ℚ)))
    ∧ (∀ (fs : FileState) (series : String) (start : Int) (endOpt : Option Int)
        (ent : JObj),
      jLookup (load_progress fs) series = some (JVal.obj ent) →
      ∃ entry : JObj,
        jLookup (load_progress
            (set_intro_skip_seconds fs series start endOpt).2) series
          = some (JVal.obj entry) ∧
        ∀ k : String, k ∉ ["intro_skip_start", "intro_skip_end"] →
          jLookup entry k = jLookup ent k)
    ∧ jLookup (load_progress (set_intro_skip_seconds
        (set_intro_skip_seconds FileState.absent "x" 5 (some 70)).2 "x" 10).2) "x"
      = some (JVal.obj [("intro_skip_start", JVal.num 10),
          ("intro_skip_end", JVal.num 70)]) := by
  refine ⟨?_, ?_, ?_, ?_⟩
  · intro fs series start
    refine ⟨rfl, ?_⟩
    have hclamp : max 0 (max 0 start + 60) = max 0 start + 60 := by omega
    have hmain : jLookup (load_progress (set_intro_skip_seconds fs series start).2)
        series
        = some (JVal.obj (jSet (jSet
            (match jLookup (load_progress fs) series with
              | some (JVal.obj ent) => ent
              | _ => [])
            "intro_skip_start" (JVal.num ((max 0 start : Int) : ℚ)))
            "intro_skip_end" (JVal.num ((max 0 start + 60 : Int) : ℚ)))) := by
      simp [set_intro_skip_seconds, load_progress_write, jLookup_jSet, hclamp]
    refine ⟨_, hmain, ?_, ?_⟩ <;> simp [jLookup_jSet]
  · intro fs series start endv
    refine ⟨rfl, ?_⟩
    have hmain : jLookup (load_progress
          (set_intro_skip_seconds fs series start (some endv)).2) series
        = some (JVal.obj (jSet (jSet
            (match jLookup (load_progress fs) series with
              | some (JVal.obj ent) => ent
              | _ => [])
            "intro_skip_start" (JVal.num ((max 0 start : Int) : ℚ)))
            "intro_skip_end" (JVal.num ((max 0 endv : Int) : ℚ)))) := by
      simp [set_intro_skip_seconds, load_progress_write, jLookup_jSet]
    refine ⟨_, hmain, ?_, ?_⟩ <;> simp [jLookup_jSet]
  · intro fs series start endOpt ent hent
    cases endOpt with
    | none =>
      have hmain : jLookup (load_progress
            (set_intro_skip_seconds fs series start none).2) series
          = some (JVal.obj (jSet (jSet ent
              "intro_skip_start" (JVal.num ((max 0 start : Int) : ℚ)))
              "intro_skip_end" (JVal.num ((max 0 (max 0 start + 60) : Int) : ℚ)))) := by
        simp [set_intro_skip_seconds, load_progress_write, jLookup_jSet, hent]
      refine ⟨_, hmain, ?_⟩
      intro k hk
      simp only [List.mem_cons, List.not_mem_nil, or_false, not_or] at hk
      obtain ⟨h1, h2⟩ := hk
      simp [jLookup_jSet, Ne.symm h1, Ne.symm h2]
    | some endv =>
      have hmain : jLookup (load_progress
            (set_intro_skip_seconds fs series start (some endv)).2) series
          = some (JVal.obj (jSet (jSet ent
              "intro_skip_start" (JVal.num ((max 0 start : Int) : ℚ)))
              "intro_skip_end" (JVal.num ((max 0 endv : Int) : ℚ)))) := by
        simp [set_intro_skip_seconds, load_progress_write, jLookup_jSet, hent]
      refine ⟨_, hmain, ?_⟩
      intro k hk
      simp only [List.mem_cons, List.not_mem_nil, or_false, not_or] at hk
      obtain ⟨h1, h2⟩ := hk
      simp [jLookup_jSet, Ne.symm h1, Ne.symm h2]
  · simp [set_intro_skip_seconds, load_progress_write, jSet, jLookup]

/-- Witness for C3 as amended: the frame part applied at a concrete store,
showing an unrelated `end_skip` field of the entry survives the call. -/
theorem claim_C3_amended_witness :
    ∃ entry : JObj,
      jLookup (load_progress (set_intro_skip_seconds
          (FileState.json (JVal.obj [("x", JVal.obj [("end_skip", JVal.num 30)])]))
          "x" 10 none).2) "x" = some (JVal.obj entry) ∧
      jLookup entry "end_skip" = jLookup [("end_skip", JVal.num 30)] "end_skip" := by
  obtain ⟨entry, h1, h2⟩ := claim_C3_amended.2.2.1
    (FileState.json (JVal.obj [("x", JVal.obj [("end_skip", JVal.num 30)])]))
    "x" 10 none [("end_skip", JVal.num 30)] rfl
  exact ⟨entry, h1, h2 "end_skip" (by decide)⟩

/-- Counterexample to C9: a stored entry with `intro_skip_start = 90` and
no `intro_skip_end` field: the effective end is the global default
`INTRO_SKIP_SECONDS + 60 = 140`, not `90 + 60 = 150`. -/
theorem claim_C9_counterexample :
    get_intro_skip_end_seconds
        (FileState.json (JVal.obj
          [("ex", JVal.obj [("intro_skip_start", JVal.num 90)])])) "ex"
      = 140
    ∧ (140 : Int) ≠ 90 + 60 := by
  constructor
  · simp [get_intro_skip_end_seconds, load_progress_write, jLookup, pyInt,
      pyTrunc, INTRO_SKIP_SECONDS]
  · norm_num

theorem pyInt_intCast (n : Int) : pyInt (JVal.num (n : ℚ)) = Except.ok n := by
  simp [pyInt, pyTrunc, Int.tdiv_one]

/-- Claim C9 as amended: when a stored entry has no `intro_skip_end`
field, the effective intro-skip end is the global default
`INTRO_SKIP_SECONDS + 60` (`140` under the default configuration),
independent of any stored `intro_skip_start`; the returned value is always
clamped to be `≥ 0`. -/
theorem claim_C9_amended :
    (∀ (fs : FileState) (series : String) (e : JObj),
      jLookup (load_progress fs) series = some (JVal.obj e) →
      jLookup e "intro_skip_end" = none →
      get_intro_skip_end_seconds fs series = INTRO_SKIP_SECONDS + 60)
    ∧ (∀ (fs : FileState) (series : String),
        0 ≤ get_intro_skip_end_seconds fs series)
    ∧ INTRO_SKIP_SECONDS + 60 = 140 := by
  refine ⟨?_, ?_, rfl⟩
  · intro fs series e he hend
    simp only [get_intro_skip_end_seconds]
    rw [he]
    simp only [Option.getD_some]
    try dsimp only
    rw [hend]
    simp only [Option.getD_none]
    rw [pyInt_intCast (INTRO_SKIP_SECONDS + 60)]
    dsimp only
    simp only [INTRO_SKIP_SECONDS]
    omega
  · intro fs series
    simp only [get_intro_skip_end_seconds]
    rcases hdl : (jLookup (load_progress fs) series).getD (JVal.obj [])
      with _ | b | q | s | l | a <;> try dsimp only
    · simp [INTRO_SKIP_SECONDS]
    · simp [INTRO_SKIP_SECONDS]
    · simp [INTRO_SKIP_SECONDS]
    · simp [INTRO_SKIP_SECONDS]
    · rcases hpi : pyInt ((jLookup l "intro_skip_end").getD
          (JVal.num ((INTRO_SKIP_SECONDS + 60 : Int) : ℚ))) with err | v
      · simp [INTRO_SKIP_SECONDS]
      · simp
    · simp [INTRO_SKIP_SECONDS]

/-- Witness for C9 as amended: a stored entry without `intro_skip_end`
yields the global default `140`. -/
theorem claim_C9_amended_witness :
    get_intro_skip_end_seconds
        (FileState.json (JVal.obj [("w", JVal.obj [])])) "w"
      = INTRO_SKIP_SECONDS + 60 :=
  claim_C9_amended.1 (FileState.json (JVal.obj [("w", JVal.obj [])])) "w" [] rfl rfl

theorem jLookup_settings_foldl (settings : JObj) (ks : List String)
    (acc : JObj) (k : String) :
    jLookup (ks.foldl (fun acc k' =>
        match jLookup settings k' with
        | some v => jSet acc k' v
        | none => acc) acc) k =
      if k ∈ ks ∧ (jLookup settings k).isSome then jLookup settings k
      else jLookup acc k := by
  induction ks generalizing acc with
  | nil => simp
  | cons k0 ks ih =>
    simp only [List.foldl_cons]
    rw [ih]
    by_cases hk : k = k0
    · subst hk
      cases hs : jLookup settings k with
      | none => simp [hs]
      | some v =>
        by_cases hmem : k ∈ ks
        · simp [hs, hmem]
        · simp [hs, hmem, jLookup_jSet]
    · cases hs : jLookup settings k0 with
      | none => simp [hk]
      | some v =>
        simp [hk, jLookup_jSet, Ne.symm hk]

/-- Counterexample to C5: `save_settings_file` does not read the current
file contents, so a field absent from the partial input is written with
its hardcoded default, not its prior file value: after
`save_settings_file({"playbackRate": 2})` the written record has
`volume = 1.0`, even though the prior file may have held, say, `1/2`
(which `1.0` does not equal). -/
theorem claim_C5_counterexample :
    jLookup (save_settings_file [("playbackRate", JVal.num 2)]).2 "volume"
      = some (JVal.num 1)
    ∧ (1 : ℚ) ≠ 1 / 2 := by
  constructor
  · simp [save_settings_file, _default_settings, jSet, jLookup]
  · norm_num

/-- Claim C5 as amended: `save_settings_file(partial)` writes the
hardcoded defaults overridden by the partial's known keys — independent of
the prior file contents, which it never reads; keys outside the default
schema are dropped; the whole file is rewritten and the call reports
success. -/
theorem claim_C5_amended (settings : JObj) :
    (save_settings_file settings).1 = true ∧
    ∀ k : String,
      jLookup (save_settings_file settings).2 k =
        if k ∈ _default_settings.map Prod.fst ∧ (jLookup settings k).isSome
        then jLookup settings k
        else jLookup _default_settings k := by
  refine ⟨rfl, ?_⟩
  intro k
  simp only [save_settings_file]
  rw [jLookup_settings_foldl]

/-- Counterexample to C4: a present literal `null` for `autoFullscreen`
is coerced with Python `bool()` to `false`, not treated as `true`: merging
`{"autoFullscreen": null}` with `{}` yields `autoFullscreen = false`. -/
theorem claim_C4_counterexample :
    get_settings [("autoFullscreen", JVal.null)] []
      = Except.ok [("autoFullscreen", JVal.boolean false),
          ("autoSkipIntro", JVal.boolean true),
          ("autoSkipEndScreen", JVal.boolean true),
          ("autoNext", JVal.boolean true),
          ("playbackRate", JVal.num 1),
          ("volume", JVal.num 1)]
    ∧ (false : Bool) ≠ true := by
  constructor
  · rfl
  · decide

/-- Claim C4 as amended: in the merged settings each auto boolean is
`true` when the field is absent, while a present value is coerced with
Python truthiness (so a present `null` — and likewise `false`, `0`, `""` —
counts as disabled); `playbackRate`/`volume` fall back to `1.0` only when
absent, and a present non-numeric value makes the conversion raise (the
error propagates instead of falling back); merging two empty records
yields all four auto flags `true` and rate/volume `1.0`. -/
theorem claim_C4_amended :
    (∀ (f l : JObj) (res : JObj), get_settings f l = Except.ok res →
      (jLookup (jUpdate f l) "autoFullscreen" = none →
        jLookup res "autoFullscreen" = some (JVal.boolean true)) ∧
      (∀ v : JVal, jLookup (jUpdate f l) "autoFullscreen" = some v →
        jLookup res "autoFullscreen" = some (JVal.boolean (pyBool v))) ∧
      (jLookup (jUpdate f l) "autoSkipIntro" = none →
        jLookup res "autoSkipIntro" = some (JVal.boolean true)) ∧
      (jLookup (jUpdate f l) "autoSkipEndScreen" = none →
        jLookup res "autoSkipEndScreen" = some (JVal.boolean true)) ∧
      (jLookup (jUpdate f l) "playbackRate" = none →
        jLookup res "playbackRate" = some (JVal.num 1)) ∧
      (jLookup (jUpdate f l) "volume" = none →
        jLookup res "volume" = some (JVal.num 1)))
    ∧ get_settings [] []
      = Except.ok [("autoFullscreen", JVal.boolean true),
          ("autoSkipIntro", JVal.boolean true),
          ("autoSkipEndScreen", JVal.boolean true),
          ("autoNext", JVal.boolean true),
          ("playbackRate", JVal.num 1),
          ("volume", JVal.num 1)]
    ∧ get_settings [("playbackRate", JVal.null)] []
      = Except.error PyErr.typeError := by
  refine ⟨?_, rfl, rfl⟩
  intro f l res hres
  simp only [get_settings] at hres
  split at hres
  · exact absurd hres (by simp)
  · next pr hpr =>
    split at hres
    · exact absurd hres (by simp)
    · next vol hvol =>
      simp only [Except.ok.injEq] at hres
      subst hres
      refine ⟨?_, ?_, ?_, ?_, ?_, ?_⟩
      · intro habs
        simp [jLookup_jSet, habs, pyBool]
      · intro v hv
        simp [jLookup_jSet, hv]
      · intro habs
        simp [jLookup_jSet, habs, pyBool]
      · intro habs
        simp [jLookup_jSet, habs, pyBool]
      · intro habs
        simp only [jLookup_jSet] at hpr
        simp [habs, pyFloat] at hpr
        subst hpr
        simp [jLookup_jSet]
      · intro habs
        simp only [jLookup_jSet] at hvol
        simp [habs, pyFloat] at hvol
        subst hvol
        simp [jLookup_jSet]

/-- Witness for C4 as amended: the general part applied to two empty
records, with the success and absence hypotheses discharged. -/
theorem claim_C4_amended_witness :
    jLookup [("autoFullscreen", JVal.boolean true),
      ("autoSkipIntro", JVal.boolean true),
      ("autoSkipEndScreen", JVal.boolean true),
      ("autoNext", JVal.boolean true),
      ("playbackRate", JVal.num 1),
      ("volume", JVal.num 1)] "autoFullscreen" = some (JVal.boolean true) :=
  (claim_C4_amended.1 [] []
    [("autoFullscreen", JVal.boolean true),
     ("autoSkipIntro", JVal.boolean true),
     ("autoSkipEndScreen", JVal.boolean true),
     ("autoNext", JVal.boolean true),
     ("playbackRate", JVal.num 1),
     ("volume", JVal.num 1)] rfl).1 rfl

/-- Claim C7: the locator matches each provider pattern in the fixed
priority order (`"s.to"` before `"aniworld.to"`), the first match wins
regardless of the other pattern, a URL matching no pattern yields the null
identity `(None, None, None, None)` rather than an error, and parsing the
URL built from the s.to template for `(series="one-piece", season=1,
episode=5)` returns exactly that identity. -/
theorem claim_C7_locator_round_trip :
    (∀ url : String, searchSto url.data = none → searchAni url.data = none →
      parse_episode_info url = (none, none, none, none))
    ∧ (∀ (url : String) (r : String × Nat × Option Nat),
        searchSto url.data = some r →
        parse_episode_info url
          = (some (pyLower r.1), some (r.2.1 : Int),
             r.2.2.map Int.ofNat, some "s.to"))
    ∧ parse_episode_info (sto_episode_url "one-piece" 1 5)
        = (some "one-piece", some 1, some 5, some "s.to") := by
  refine ⟨?_, ?_, ?_⟩
  · intro url h1 h2
    simp [parse_episode_info, h1, h2]
  · intro url r h
    obtain ⟨ser, se, ep⟩ := r
    simp [parse_episode_info, h]
  · decide

/-- Witness for C7: the no-match and first-match-wins parts applied to
concrete URLs. -/
theorem claim_C7_locator_round_trip_witness :
    parse_episode_info "hello" = (none, none, none, none) ∧
    parse_episode_info "https://s.to/serie/stream/a/staffel-1/episode-2"
      = (some "a", some 1, some 2, some "s.to") :=
  ⟨claim_C7_locator_round_trip.1 "hello" (by decide) (by decide),
   claim_C7_locator_round_trip.2.1
     "https://s.to/serie/stream/a/staffel-1/episode-2"
     ("a", 1, some 2) (by decide)⟩

/-- Counterexample to C6: a season-only URL of the same series parses with
`episode = None`, and even though the season differs from the last-known
one the loop classifies it as neither continue nor switch (it keeps
polling), contrary to the claim that any same-series season change is a
continue. -/
theorem claim_C6_counterexample :
    parse_episode_info "https://s.to/serie/stream/naruto/staffel-2"
      = (some "naruto", some 2, none, some "s.to")
    ∧ classify_navigation "naruto" 1 3 (some "naruto") (some 2) none
        = NavAction.stay
    ∧ NavAction.stay ≠ NavAction.continueSession := by
  refine ⟨by decide, by decide, by decide⟩

/-- Claim C6 as amended: with the last-known identity for `series` at
season/episode `(curSe, curEp)`, a parsed identity of the same series is
classified as continue only when both season and episode were parsed
(non-null) and the pair differs; a parsed nonempty series different from
the current one is classified as switch; in particular, after
`("naruto",1,3)` the parse of the episode-4 URL is continue and the parse
of the `bleach` URL is switch. -/
theorem claim_C6_continuation_vs_switch :
    (∀ (series : String) (curSe curEp se ep : Int),
      se ≠ curSe ∨ ep ≠ curEp →
      classify_navigation series curSe curEp (some series) (some se) (some ep)
        = NavAction.continueSession)
    ∧ (∀ (series s2 : String) (curSe curEp : Int) (se2 ep2 : Option Int),
      s2 ≠ "" → s2 ≠ series →
      classify_navigation series curSe curEp (some s2) se2 ep2
        = NavAction.switchSeries)
    ∧ (∀ (series : String) (curSe curEp : Int) (se : Int),
      classify_navigation series curSe curEp (some series) (some se) none
        = NavAction.stay)
    ∧ classify_navigation "naruto" 1 3
        (parse_episode_info "https://s.to/serie/stream/naruto/staffel-1/episode-4").1
        (parse_episode_info "https://s.to/serie/stream/naruto/staffel-1/episode-4").2.1
        (parse_episode_info "https://s.to/serie/stream/naruto/staffel-1/episode-4").2.2.1
        = NavAction.continueSession
    ∧ classify_navigation "naruto" 1 3
        (parse_episode_info "https://s.to/serie/stream/bleach/staffel-1/episode-1").1
        (parse_episode_info "https://s.to/serie/stream/bleach/staffel-1/episode-1").2.1
        (parse_episode_info "https://s.to/serie/stream/bleach/staffel-1/episode-1").2.2.1
        = NavAction.switchSeries := by
  refine ⟨?_, ?_, ?_, by decide, by decide⟩
  · intro series curSe curEp se ep h
    rcases h with h | h <;> simp [classify_navigation, h]
  · intro series s2 curSe curEp se2 ep2 h1 h2
    simp [classify_navigation, pyTruthyStr, h1, h2]
  · intro series curSe curEp se
    simp [classify_navigation]

/-- Witness for C6 as amended: the continue and switch parts at concrete
identities. -/
theorem claim_C6_continuation_vs_switch_witness :
    classify_navigation "a" 1 1 (some "a") (some 1) (some 2)
      = NavAction.continueSession ∧
    classify_navigation "a" 1 1 (some "b") (some 1) (some 1)
      = NavAction.switchSeries :=
  ⟨claim_C6_continuation_vs_switch.1 "a" 1 1 1 2 (Or.inr (by decide)),
   claim_C6_continuation_vs_switch.2.1 "a" "b" 1 1 (some 1) (some 1)
     (by decide) (by decide)⟩
